import Mathlib

/-!
# Verification of the Slang issue 8882 reproduction driver

The program (`src/main.cpp`) is a linear driver around the Slang shader
compiler: `compile` creates a global session and a session, then runs five
stages (module load, entry-point lookup, composition, linking, code
retrieval), printing each stage's diagnostics and returning at the first
failure; `main` runs `compile` on two hard-coded sources.

The Slang library is external.  It is embedded as an arbitrary state-passing
interface `SlangApi σ`: every API function receives the library state and
returns its outputs together with the next state, so that the theorems
quantify over every behaviour of the library.  `compile` returns a `Run`: the
final library state, the ordered trace of API calls and `std::cout` writes it
performed, and how it ended (a returned `int`, or the dereference of a null
COM pointer).
-/

namespace SlangIssueRepro

/-! ## The two hard-coded shader sources (main.cpp lines 9 and 10) -/

/-- The C string `shaderSourceError` of main.cpp line 9. -/
def shaderSourceError : String :=
  "struct Input\r\n\x7b\r\n    uint VertexId : SV_VertexId;\r\n\x7d;\r\n\r\nstruct Output\r\n\x7b\r\n    float4 Position : SV_Position;\r\n    float2 Uv : Uv;\r\n\x7d;\r\n\r\nvoid main(in Input input, out Output output)\r\n\x7b\r\n    float4 positionUvs[3];\r\n    positionUvs[0] = float4(-1, -1, 0, 0);\r\n    positionUvs[1] = float4(3, -1, 2, 0);\r\n    positionUvs[2] = float4(-1, 3, 0, 2);\r\n\r\n    output.Position = float4(positionUvs[input.VertexId].xy, 0, 1);\r\n    output.Uv = float2(positionUvs[input.VertexId].zw);\r\n\x7d"

/-- The C string `shaderSourceOk` of main.cpp line 10. -/
def shaderSourceOk : String :=
  "struct Input\r\n\x7b\r\n    uint VertexId : SV_VertexId;\r\n\x7d;\r\n\r\nstruct Output\r\n\x7b\r\n    float4 Position : SV_Position;\r\n    float2 Uv : Uv;\r\n\x7d;\r\n\r\n[shader(\"vertex\")] void main(in Input input, out Output output)\r\n\x7b\r\n    float4 positionUvs[3];\r\n    positionUvs[0] = float4(-1, -1, 0, 0);\r\n    positionUvs[1] = float4(3, -1, 2, 0);\r\n    positionUvs[2] = float4(-1, 3, 0, 2);\r\n\r\n    output.Position = float4(positionUvs[input.VertexId].xy, 0, 1);\r\n    output.Uv = float2(positionUvs[input.VertexId].zw);\r\n\x7d"

/-! ## Types of the Slang API that the driver touches -/

/-- `SlangResult` is a signed 32-bit integer, and `compile` returns it as `int`.
The driver does no arithmetic on it, so it is an `Int` without a range bound. -/
abbrev SlangResult := Int

/-- Modelled from the spec: the macros `SLANG_FAILED` and `SLANG_RETURN_ON_FAIL`
are defined in slang.h, which is not among the sources.  A stage returns a
failure result when its `SlangResult` is negative (`((status) < 0)` in slang.h),
and `SLANG_RETURN_ON_FAIL(result)` returns from `compile` with that result,
unchanged, exactly in that case. -/
def SLANG_FAILED (status : SlangResult) : Bool := decide (status < 0)

/-- A non-null COM interface pointer; a nullable pointer is an `Option Handle`. -/
abbrev Handle := Nat

/-- The contents of a non-null `slang::IBlob`, read as a C string through
`getBufferPointer()`; a nullable blob pointer is an `Option Blob`. -/
abbrev Blob := String

/-- The `SlangProfileID` returned by `findProfile`. -/
abbrev ProfileID := Nat

/-- Code generation targets (`SlangCompileTarget` of slang.h); the driver uses
only `SLANG_GLSL`. -/
inductive SlangCompileTarget where
  | SLANG_TARGET_UNKNOWN
  | SLANG_GLSL
  | SLANG_SPIRV
  deriving DecidableEq, Repr

/-- Pipeline stages (`SlangStage` of slang.h); the driver uses only
`SLANG_STAGE_VERTEX`. -/
inductive SlangStage where
  | SLANG_STAGE_NONE
  | SLANG_STAGE_VERTEX
  | SLANG_STAGE_FRAGMENT
  deriving DecidableEq, Repr

/-- The fields of `slang::TargetDesc` that the driver sets. -/
structure TargetDesc where
  format : SlangCompileTarget
  profile : ProfileID
  deriving DecidableEq, Repr

/-- The fields of `slang::SessionDesc` that the driver sets. -/
structure SessionDesc where
  targets : List TargetDesc
  targetCount : Nat
  deriving DecidableEq, Repr

/-- The external compiler: each function of the Slang API called by the driver,
as a function of its arguments and of the library state `σ`.  Out-parameters
are returned next to the result code; the last component is the next state. -/
structure SlangApi (σ : Type) where
  createGlobalSession : σ → SlangResult × Option Handle × σ
  findProfile : Handle → String → σ → ProfileID × σ
  createSession : Handle → SessionDesc → σ → SlangResult × Option Handle × σ
  loadModuleFromSourceString :
    Handle → String → String → String → σ → Option Handle × Option Blob × σ
  findAndCheckEntryPoint :
    Handle → String → SlangStage → σ → SlangResult × Option Handle × Option Blob × σ
  createCompositeComponentType :
    Handle → List (Option Handle) → σ → SlangResult × Option Handle × Option Blob × σ
  link : Handle → σ → SlangResult × Option Handle × Option Blob × σ
  getEntryPointCode :
    Handle → Nat → Nat → σ → SlangResult × Option Blob × Option Blob × σ

/-! ## Observable behaviour of a run -/

/-- One `std::cout << ... << std::endl` statement of main.cpp. -/
inductive Write where
  /-- Line 16, in `logDiagnostics`. -/
  | diagnostics (text : String)
  /-- Line 101. -/
  | success (shaderName : String)
  /-- Line 105. -/
  | code (text : String)
  deriving DecidableEq, Repr

/-- The characters a write sends to standard output. -/
def Write.render : Write → String
  | .diagnostics text => text ++ "\n"
  | .success shaderName => "Successfully compiled shader: " ++ shaderName ++ "\n"
  | .code text => text ++ "\n"

/-- What the driver does, in order: a call into the Slang API (with the
arguments passed and the outputs received), a call of `compile` made by `main`,
or a write to standard output. -/
inductive Event where
  | createGlobalSession (result : SlangResult) (out : Option Handle)
  | findProfile (self : Handle) (name : String) (ret : ProfileID)
  | createSession (self : Handle) (desc : SessionDesc) (result : SlangResult)
      (out : Option Handle)
  | loadModuleFromSourceString (self : Handle) (moduleName path source : String)
      (ret : Option Handle) (diagnostics : Option Blob)
  | findAndCheckEntryPoint (self : Handle) (name : String) (stage : SlangStage)
      (result : SlangResult) (out : Option Handle) (diagnostics : Option Blob)
  | createCompositeComponentType (self : Handle) (components : List (Option Handle))
      (result : SlangResult) (out : Option Handle) (diagnostics : Option Blob)
  | link (self : Handle) (result : SlangResult) (out : Option Handle)
      (diagnostics : Option Blob)
  | getEntryPointCode (self : Handle) (entryPointIndex targetIndex : Nat)
      (result : SlangResult) (out : Option Blob) (diagnostics : Option Blob)
  | compile (shaderSource shaderName : String)
  | cout (w : Write)
  deriving DecidableEq, Repr

/-- The COM pointers on which `compile` calls a method without a preceding
null test. -/
inductive Ptr where
  | globalSession
  | session
  | composedProgram
  | linkedProgram
  | code
  deriving DecidableEq, Repr

/-- How a function ended: it returned an `int`, or it called a method on a null
pointer (undefined behaviour, after which nothing more is observed). -/
inductive Outcome where
  | returned (value : Int)
  | nullDeref (p : Ptr)
  deriving DecidableEq, Repr

/-- The result of running a function of the driver. -/
structure Run (σ : Type) where
  world : σ
  trace : List Event
  outcome : Outcome

/-! ## The driver -/

/-- The function `logDiagnostics` of main.cpp lines 12 to 18. -/
def logDiagnostics (diagnostics : Option Blob) : List Event :=
  match diagnostics with
  | some text => [Event.cout (Write.diagnostics text)]
  | none => []

/-- The function `compile` of main.cpp lines 20 to 109. -/
def compile {σ : Type} (api : SlangApi σ) (shaderSource shaderName : String) (w0 : σ) :
    Run σ :=
  -- line 24
  match api.createGlobalSession w0 with
  | (r0, globalSession, w1) =>
  let t1 := [Event.createGlobalSession r0 globalSession]
  -- line 30: globalSession->findProfile
  match globalSession with
  | none => ⟨w1, t1, .nullDeref .globalSession⟩
  | some gs =>
  match api.findProfile gs "spirv_1_5" w1 with
  | (profile, w2) =>
  let targetDesc : TargetDesc := ⟨.SLANG_GLSL, profile⟩
  let localSessionDesc : SessionDesc := ⟨[targetDesc], 1⟩
  let t2 := t1 ++ [Event.findProfile gs "spirv_1_5" profile]
  -- line 41
  match api.createSession gs localSessionDesc w2 with
  | (r2, session, w3) =>
  let t3 := t2 ++ [Event.createSession gs localSessionDesc r2 session]
  -- line 47: session->loadModuleFromSourceString
  match session with
  | none => ⟨w3, t3, .nullDeref .session⟩
  | some s =>
  match api.loadModuleFromSourceString s "shader.slang" "shader.slang" shaderSource w3 with
  | (slangModule, d4, w4) =>
  let t4 := t3 ++ [Event.loadModuleFromSourceString s "shader.slang" "shader.slang"
    shaderSource slangModule d4] ++ logDiagnostics d4
  -- lines 49 to 52
  match slangModule with
  | none => ⟨w4, t4, .returned (-1)⟩
  | some m =>
  -- line 59
  match api.findAndCheckEntryPoint m "main" .SLANG_STAGE_VERTEX w4 with
  | (r5, entrypoint, d5, w5) =>
  let t5 := t4 ++ [Event.findAndCheckEntryPoint m "main" .SLANG_STAGE_VERTEX r5 entrypoint d5]
    ++ logDiagnostics d5
  -- line 62
  if SLANG_FAILED r5 then ⟨w5, t5, .returned r5⟩ else
  let components : List (Option Handle) := [some m, entrypoint]
  -- line 75
  match api.createCompositeComponentType s components w5 with
  | (r6, composedProgram, d6, w6) =>
  let t6 := t5 ++ [Event.createCompositeComponentType s components r6 composedProgram d6]
    ++ logDiagnostics d6
  -- line 78
  if SLANG_FAILED r6 then ⟨w6, t6, .returned r6⟩ else
  -- line 85: composedProgram->link
  match composedProgram with
  | none => ⟨w6, t6, .nullDeref .composedProgram⟩
  | some cp =>
  match api.link cp w6 with
  | (r7, linkedProgram, d7, w7) =>
  let t7 := t6 ++ [Event.link cp r7 linkedProgram d7] ++ logDiagnostics d7
  -- line 88
  if SLANG_FAILED r7 then ⟨w7, t7, .returned r7⟩ else
  -- line 95: linkedProgram->getEntryPointCode
  match linkedProgram with
  | none => ⟨w7, t7, .nullDeref .linkedProgram⟩
  | some lp =>
  match api.getEntryPointCode lp 0 0 w7 with
  | (r8, code, d8, w8) =>
  let t8 := t7 ++ [Event.getEntryPointCode lp 0 0 r8 code d8] ++ logDiagnostics d8
  -- line 98
  if SLANG_FAILED r8 then ⟨w8, t8, .returned r8⟩ else
  -- line 101
  let t9 := t8 ++ [Event.cout (Write.success shaderName)]
  -- lines 103 to 106: code->getBufferPointer
  if targetDesc.format = .SLANG_GLSL then
    match code with
    | none => ⟨w8, t9, .nullDeref .code⟩
    | some text => ⟨w8, t9 ++ [Event.cout (Write.code text)], .returned 0⟩
  else
    ⟨w8, t9, .returned 0⟩

/-- The function `main` of main.cpp lines 111 to 117.  The values returned by
the two calls of `compile` are discarded. -/
def main {σ : Type} (api : SlangApi σ) (w0 : σ) : Run σ :=
  -- line 113
  let r1 := compile api shaderSourceError "error.slang" w0
  let t1 := [Event.compile shaderSourceError "error.slang"] ++ r1.trace
  match r1.outcome with
  | .nullDeref p => ⟨r1.world, t1, .nullDeref p⟩
  | .returned _ =>
  -- line 114
  let r2 := compile api shaderSourceOk "ok.slang" r1.world
  let t2 := t1 ++ [Event.compile shaderSourceOk "ok.slang"] ++ r2.trace
  match r2.outcome with
  | .nullDeref p => ⟨r2.world, t2, .nullDeref p⟩
  | .returned _ =>
  -- line 116
  ⟨r2.world, t2, .returned 0⟩

/-! ## Notions used to state the properties -/

/-- The five stages of the pipeline that `compile` runs after session creation. -/
inductive Stage where
  | load
  | findEntryPoint
  | compose
  | link
  | getEntryPointCode
  deriving DecidableEq, Repr

/-- The stages in the order of main.cpp. -/
def pipeline : List Stage :=
  [.load, .findEntryPoint, .compose, .link, .getEntryPointCode]

/-- The stage an API call belongs to, if it is a stage call. -/
def Event.stage? : Event → Option Stage
  | .loadModuleFromSourceString .. => some .load
  | .findAndCheckEntryPoint .. => some .findEntryPoint
  | .createCompositeComponentType .. => some .compose
  | .link .. => some .link
  | .getEntryPointCode .. => some .getEntryPointCode
  | _ => none

/-- Whether a stage call failed, by the test `compile` applies to it: a null
module for the load stage, `SLANG_FAILED` of the result for the others. -/
def Event.failed : Event → Bool
  | .loadModuleFromSourceString _ _ _ _ ret _ => ret.isNone
  | .findAndCheckEntryPoint _ _ _ result _ _ => SLANG_FAILED result
  | .createCompositeComponentType _ _ result _ _ => SLANG_FAILED result
  | .link _ result _ _ => SLANG_FAILED result
  | .getEntryPointCode _ _ _ result _ _ => SLANG_FAILED result
  | _ => false

/-- The diagnostic blob a stage call handed back. -/
def Event.diagnostics? : Event → Option Blob
  | .loadModuleFromSourceString _ _ _ _ _ d => d
  | .findAndCheckEntryPoint _ _ _ _ _ d => d
  | .createCompositeComponentType _ _ _ _ d => d
  | .link _ _ _ d => d
  | .getEntryPointCode _ _ _ _ _ d => d
  | _ => none

/-- A stage call's result code; the load stage has none (it returns the
module pointer). -/
def Event.result? : Event → Option SlangResult
  | .findAndCheckEntryPoint _ _ _ result _ _ => some result
  | .createCompositeComponentType _ _ result _ _ => some result
  | .link _ result _ _ => some result
  | .getEntryPointCode _ _ _ result _ _ => some result
  | _ => none

/-- Whether an event is a write made by `logDiagnostics`. -/
def Event.isDiagnosticsWrite : Event → Bool
  | .cout (.diagnostics _) => true
  | _ => false

/-- The stage calls of a trace, in order. -/
def stageCalls (t : List Event) : List Event :=
  t.filter fun e => e.stage?.isSome

/-- The stage calls and the diagnostics writes of a trace, in order. -/
def stageLog (t : List Event) : List Event :=
  t.filter fun e => e.stage?.isSome || e.isDiagnosticsWrite

/-- The writes to standard output of a trace, in order. -/
def output (t : List Event) : List Write :=
  t.filterMap fun e => match e with
    | .cout w => some w
    | _ => none

/-- What `logDiagnostics` writes for the blobs handed back by the stage calls of
a trace, in call order. -/
def diagnosticWrites (t : List Event) : List Write :=
  (stageCalls t).flatMap fun e => output (logDiagnostics e.diagnostics?)

/-- The code blobs handed back by `getEntryPointCode` in a trace. -/
def generatedCode (t : List Event) : List Blob :=
  t.filterMap fun e => match e with
    | .getEntryPointCode _ _ _ _ out _ => out
    | _ => none

/-- The calls of `compile` recorded in a trace, as (source, name) pairs. -/
def invocations (t : List Event) : List (String × String) :=
  t.filterMap fun e => match e with
    | .compile shaderSource shaderName => some (shaderSource, shaderName)
    | _ => none

/-- The arguments (module name, path, source text) of the module loads of a
trace, in order. -/
def loadArguments (t : List Event) : List (String × String × String) :=
  t.filterMap fun e => match e with
    | .loadModuleFromSourceString _ moduleName path source _ _ => some (moduleName, path, source)
    | _ => none

/-- The event with the name in a success line replaced by `shaderName`; every
other event, the API calls with all their arguments included, is unchanged. -/
def Event.withName (shaderName : String) : Event → Event
  | .cout (.success _) => .cout (.success shaderName)
  | e => e

/-- The first stage of a trace whose call failed. -/
def failedStage (t : List Event) : Option Stage :=
  ((stageCalls t).find? Event.failed).bind Event.stage?

/-- All five stages were called and each call succeeded. -/
def AllStagesSucceeded (t : List Event) : Prop :=
  (stageCalls t).filterMap Event.stage? = pipeline ∧ ∀ e ∈ stageCalls t, e.failed = false

instance (t : List Event) : Decidable (AllStagesSucceeded t) :=
  inferInstanceAs (Decidable
    ((stageCalls t).filterMap Event.stage? = pipeline ∧ ∀ e ∈ stageCalls t, e.failed = false))

/-- The library contract on out-parameters: a call whose result is not a
failure leaves a non-null pointer in its out-parameter (a failed call may leave
it null). -/
structure SuccessYieldsOutput {σ : Type} (api : SlangApi σ) : Prop where
  createGlobalSession : ∀ w,
    SLANG_FAILED (api.createGlobalSession w).1 = false →
      (api.createGlobalSession w).2.1 ≠ none
  createSession : ∀ gs desc w,
    SLANG_FAILED (api.createSession gs desc w).1 = false →
      (api.createSession gs desc w).2.1 ≠ none
  findAndCheckEntryPoint : ∀ m name stage w,
    SLANG_FAILED (api.findAndCheckEntryPoint m name stage w).1 = false →
      (api.findAndCheckEntryPoint m name stage w).2.1 ≠ none
  createCompositeComponentType : ∀ s components w,
    SLANG_FAILED (api.createCompositeComponentType s components w).1 = false →
      (api.createCompositeComponentType s components w).2.1 ≠ none
  link : ∀ cp w,
    SLANG_FAILED (api.link cp w).1 = false → (api.link cp w).2.1 ≠ none
  getEntryPointCode : ∀ lp entryPointIndex targetIndex w,
    SLANG_FAILED (api.getEntryPointCode lp entryPointIndex targetIndex w).1 = false →
      (api.getEntryPointCode lp entryPointIndex targetIndex w).2.1 ≠ none

/-- Session creation never fails: `createGlobalSession` and `createSession`
return a result that is not a failure. -/
structure SessionsCreated {σ : Type} (api : SlangApi σ) : Prop where
  createGlobalSession : ∀ w, SLANG_FAILED (api.createGlobalSession w).1 = false
  createSession : ∀ gs desc w, SLANG_FAILED (api.createSession gs desc w).1 = false

/-! ## Text of the two sources -/

/-- The attribute that marks `main` as a vertex entry point, with the blank
that follows it in `shaderSourceOk`. -/
def stageMarker : String := "[shader(\"vertex\")] "

/-- The start of the definition of `main` in both sources. -/
def mainHeader : String := "void main("

/-- The number of positions of `text` at which `pat` occurs. -/
def countOccurrences (pat : List Char) : List Char → Nat
  | [] => 0
  | c :: cs => (if pat.isPrefixOf (c :: cs) then 1 else 0) + countOccurrences pat cs

/-- The text without the first occurrence of `pat`. -/
def removeFirst (pat : List Char) : List Char → List Char
  | [] => []
  | c :: cs =>
    if pat.isPrefixOf (c :: cs) then (c :: cs).drop pat.length else c :: removeFirst pat cs

/-- The text with `ins` inserted immediately before the first occurrence of `pat`. -/
def insertBefore (ins pat : List Char) : List Char → List Char
  | [] => []
  | c :: cs =>
    if pat.isPrefixOf (c :: cs) then ins ++ c :: cs else c :: insertBefore ins pat cs

/-! ## Sample behaviours of the compiler -/

/-- A failure result used in the sample behaviours: the generic failure code of
slang.h, 0x80004005 read as a signed 32-bit integer. -/
def SLANG_FAIL : SlangResult := -2147467259

/-- A stateless compiler in which every call succeeds except the stage
`failing`, if any, which fails with `result`, a null output and the blob
`diagnostics`. -/
def stubApi (failing : Option Stage) (result : SlangResult) (diagnostics : Option Blob) :
    SlangApi Unit where
  createGlobalSession := fun w => (0, some 1, w)
  findProfile := fun _ _ w => (7, w)
  createSession := fun _ _ w => (0, some 2, w)
  loadModuleFromSourceString := fun _ _ _ _ w =>
    if failing = some .load then (none, diagnostics, w) else (some 3, none, w)
  findAndCheckEntryPoint := fun _ _ _ w =>
    if failing = some .findEntryPoint then (result, none, diagnostics, w)
    else (0, some 4, none, w)
  createCompositeComponentType := fun _ _ w =>
    if failing = some .compose then (result, none, diagnostics, w) else (0, some 5, none, w)
  link := fun _ w =>
    if failing = some .link then (result, none, diagnostics, w) else (0, some 6, none, w)
  getEntryPointCode := fun _ _ _ w =>
    if failing = some .getEntryPointCode then (result, none, diagnostics, w)
    else (0, some "#version 450", none, w)

/-- A compiler whose `createGlobalSession` fails and leaves the out-parameter
null; every other call succeeds. -/
def noGlobalSessionApi : SlangApi Unit where
  createGlobalSession := fun w => (SLANG_FAIL, none, w)
  findProfile := fun _ _ w => (7, w)
  createSession := fun _ _ w => (0, some 2, w)
  loadModuleFromSourceString := fun _ _ _ _ w => (some 3, none, w)
  findAndCheckEntryPoint := fun _ _ _ w => (0, some 4, none, w)
  createCompositeComponentType := fun _ _ w => (0, some 5, none, w)
  link := fun _ w => (0, some 6, none, w)
  getEntryPointCode := fun _ _ _ w => (0, some "#version 450", none, w)

/-- A compiler whose `createSession` fails and leaves the out-parameter null;
every other call succeeds. -/
def noSessionApi : SlangApi Unit where
  createGlobalSession := fun w => (0, some 1, w)
  findProfile := fun _ _ w => (7, w)
  createSession := fun _ _ w => (SLANG_FAIL, none, w)
  loadModuleFromSourceString := fun _ _ _ _ w => (some 3, none, w)
  findAndCheckEntryPoint := fun _ _ _ w => (0, some 4, none, w)
  createCompositeComponentType := fun _ _ w => (0, some 5, none, w)
  link := fun _ w => (0, some 6, none, w)
  getEntryPointCode := fun _ _ _ w => (0, some "#version 450", none, w)

/-- A compiler in which every call succeeds, but whose `getEntryPointCode`
leaves the code blob null although it returns a success result. -/
def nullCodeApi : SlangApi Unit where
  createGlobalSession := fun w => (0, some 1, w)
  findProfile := fun _ _ w => (7, w)
  createSession := fun _ _ w => (0, some 2, w)
  loadModuleFromSourceString := fun _ _ _ _ w => (some 3, none, w)
  findAndCheckEntryPoint := fun _ _ _ w => (0, some 4, none, w)
  createCompositeComponentType := fun _ _ w => (0, some 5, none, w)
  link := fun _ w => (0, some 6, none, w)
  getEntryPointCode := fun _ _ _ w => (0, none, none, w)

/-! ## Helper lemmas -/

@[simp] theorem stageCalls_nil : stageCalls [] = [] := rfl

@[simp] theorem stageCalls_append (s t : List Event) :
    stageCalls (s ++ t) = stageCalls s ++ stageCalls t := by
  simp [stageCalls]

@[simp] theorem stageCalls_logDiagnostics (d : Option Blob) :
    stageCalls (logDiagnostics d) = [] := by
  cases d <;> rfl

@[simp] theorem stageCalls_cons (e : Event) (t : List Event) :
    stageCalls (e :: t) = if e.stage?.isSome then e :: stageCalls t else stageCalls t := by
  simp [stageCalls, List.filter_cons]

@[simp] theorem stageLog_nil : stageLog [] = [] := rfl

@[simp] theorem stageLog_append (s t : List Event) :
    stageLog (s ++ t) = stageLog s ++ stageLog t := by
  simp [stageLog]

@[simp] theorem stageLog_cons (e : Event) (t : List Event) :
    stageLog (e :: t)
      = if e.stage?.isSome || e.isDiagnosticsWrite then e :: stageLog t else stageLog t := by
  simp [stageLog, List.filter_cons]

@[simp] theorem stageLog_logDiagnostics (d : Option Blob) :
    stageLog (logDiagnostics d) = logDiagnostics d := by
  cases d <;> rfl

@[simp] theorem output_nil : output [] = [] := rfl

@[simp] theorem output_append (s t : List Event) :
    output (s ++ t) = output s ++ output t := by
  simp [output]

@[simp] theorem output_cons (e : Event) (t : List Event) :
    output (e :: t) = (match e with | .cout w => [w] | _ => []) ++ output t := by
  cases e <;> simp [output]

@[simp] theorem generatedCode_nil : generatedCode [] = [] := rfl

@[simp] theorem generatedCode_append (s t : List Event) :
    generatedCode (s ++ t) = generatedCode s ++ generatedCode t := by
  simp [generatedCode]

@[simp] theorem generatedCode_cons (e : Event) (t : List Event) :
    generatedCode (e :: t)
      = (match e with | .getEntryPointCode _ _ _ _ out _ => out.toList | _ => [])
        ++ generatedCode t := by
  cases e <;> simp [generatedCode, List.filterMap_cons]
  split <;> simp_all

@[simp] theorem generatedCode_logDiagnostics (d : Option Blob) :
    generatedCode (logDiagnostics d) = [] := by
  cases d <;> rfl

@[simp] theorem loadArguments_nil : loadArguments [] = [] := rfl

@[simp] theorem loadArguments_append (s t : List Event) :
    loadArguments (s ++ t) = loadArguments s ++ loadArguments t := by
  simp [loadArguments]

@[simp] theorem loadArguments_cons (e : Event) (t : List Event) :
    loadArguments (e :: t)
      = (match e with
          | .loadModuleFromSourceString _ moduleName path source _ _ =>
            [(moduleName, path, source)]
          | _ => [])
        ++ loadArguments t := by
  cases e <;> simp [loadArguments]

@[simp] theorem loadArguments_logDiagnostics (d : Option Blob) :
    loadArguments (logDiagnostics d) = [] := by
  cases d <;> rfl

@[simp] theorem map_withName_logDiagnostics (shaderName : String) (d : Option Blob) :
    List.map (Event.withName shaderName) (logDiagnostics d) = logDiagnostics d := by
  cases d <;> rfl

@[simp] theorem invocations_nil : invocations [] = [] := rfl

@[simp] theorem invocations_append (s t : List Event) :
    invocations (s ++ t) = invocations s ++ invocations t := by
  simp [invocations]

@[simp] theorem invocations_cons (e : Event) (t : List Event) :
    invocations (e :: t)
      = (match e with | .compile shaderSource shaderName => [(shaderSource, shaderName)] | _ => [])
        ++ invocations t := by
  cases e <;> simp [invocations]

@[simp] theorem invocations_logDiagnostics (d : Option Blob) :
    invocations (logDiagnostics d) = [] := by
  cases d <;> rfl

/-- Case analysis of one run of `compile`: the eleven ways through the function,
each with the API answers that select it, the trace performed and the outcome. -/
theorem compile_cases {σ : Type} (api : SlangApi σ) (shaderSource shaderName : String)
    (w0 : σ) (r : Run σ) (hr : compile api shaderSource shaderName w0 = r)
    (motive : Run σ → Prop)
    (hGlobalNull : ∀ (r0 : SlangResult) (w1 : σ),
      api.createGlobalSession w0 = (r0, none, w1) →
      motive ⟨w1,
        [Event.createGlobalSession r0 none],
        .nullDeref .globalSession⟩)
    (hSessionNull : ∀ (r0 : SlangResult) (w1 : σ)
      (gs : Handle) (profile : ProfileID) (w2 : σ)
      (r2 : SlangResult) (w3 : σ),
      api.createGlobalSession w0 = (r0, some gs, w1) →
      api.findProfile gs "spirv_1_5" w1 = (profile, w2) →
      api.createSession gs ⟨[⟨.SLANG_GLSL, profile⟩], 1⟩ w2 = (r2, none, w3) →
      motive ⟨w3,
        [Event.createGlobalSession r0 (some gs),
          Event.findProfile gs "spirv_1_5" profile,
          Event.createSession gs ⟨[⟨.SLANG_GLSL, profile⟩], 1⟩ r2 none],
        .nullDeref .session⟩)
    (hLoadFail : ∀ (r0 : SlangResult) (w1 : σ)
      (gs : Handle) (profile : ProfileID) (w2 : σ)
      (r2 : SlangResult) (w3 : σ)
      (s : Handle) (d4 : Option Blob) (w4 : σ),
      api.createGlobalSession w0 = (r0, some gs, w1) →
      api.findProfile gs "spirv_1_5" w1 = (profile, w2) →
      api.createSession gs ⟨[⟨.SLANG_GLSL, profile⟩], 1⟩ w2 = (r2, some s, w3) →
      api.loadModuleFromSourceString s "shader.slang" "shader.slang" shaderSource w3
        = (none, d4, w4) →
      motive ⟨w4,
        [Event.createGlobalSession r0 (some gs),
          Event.findProfile gs "spirv_1_5" profile,
          Event.createSession gs ⟨[⟨.SLANG_GLSL, profile⟩], 1⟩ r2 (some s)] ++
        [Event.loadModuleFromSourceString s "shader.slang" "shader.slang" shaderSource none d4] ++
          logDiagnostics d4,
        .returned (-1)⟩)
    (hFindFail : ∀ (r0 : SlangResult) (w1 : σ)
      (gs : Handle) (profile : ProfileID) (w2 : σ)
      (r2 : SlangResult) (w3 : σ)
      (s : Handle) (d4 : Option Blob) (w4 : σ)
      (m : Handle) (r5 : SlangResult) (entrypoint : Option Handle) (d5 : Option Blob) (w5 : σ),
      api.createGlobalSession w0 = (r0, some gs, w1) →
      api.findProfile gs "spirv_1_5" w1 = (profile, w2) →
      api.createSession gs ⟨[⟨.SLANG_GLSL, profile⟩], 1⟩ w2 = (r2, some s, w3) →
      api.loadModuleFromSourceString s "shader.slang" "shader.slang" shaderSource w3
        = (some m, d4, w4) →
      api.findAndCheckEntryPoint m "main" .SLANG_STAGE_VERTEX w4 = (r5, entrypoint, d5, w5) →
      SLANG_FAILED r5 = true →
      motive ⟨w5,
        [Event.createGlobalSession r0 (some gs),
          Event.findProfile gs "spirv_1_5" profile,
          Event.createSession gs ⟨[⟨.SLANG_GLSL, profile⟩], 1⟩ r2 (some s)] ++
        [Event.loadModuleFromSourceString s "shader.slang" "shader.slang" shaderSource
          (some m) d4] ++
          logDiagnostics d4 ++
        [Event.findAndCheckEntryPoint m "main" .SLANG_STAGE_VERTEX r5 entrypoint d5] ++
          logDiagnostics d5,
        .returned r5⟩)
    (hComposeFail : ∀ (r0 : SlangResult) (w1 : σ)
      (gs : Handle) (profile : ProfileID) (w2 : σ)
      (r2 : SlangResult) (w3 : σ)
      (s : Handle) (d4 : Option Blob) (w4 : σ)
      (m : Handle) (r5 : SlangResult) (entrypoint : Option Handle) (d5 : Option Blob) (w5 : σ)
      (r6 : SlangResult) (d6 : Option Blob) (w6 : σ)
      (composedProgram : Option Handle),
      api.createGlobalSession w0 = (r0, some gs, w1) →
      api.findProfile gs "spirv_1_5" w1 = (profile, w2) →
      api.createSession gs ⟨[⟨.SLANG_GLSL, profile⟩], 1⟩ w2 = (r2, some s, w3) →
      api.loadModuleFromSourceString s "shader.slang" "shader.slang" shaderSource w3
        = (some m, d4, w4) →
      api.findAndCheckEntryPoint m "main" .SLANG_STAGE_VERTEX w4 = (r5, entrypoint, d5, w5) →
      SLANG_FAILED r5 = false →
      api.createCompositeComponentType s [some m, entrypoint] w5 = (r6, composedProgram, d6, w6) →
      SLANG_FAILED r6 = true →
      motive ⟨w6,
        [Event.createGlobalSession r0 (some gs),
          Event.findProfile gs "spirv_1_5" profile,
          Event.createSession gs ⟨[⟨.SLANG_GLSL, profile⟩], 1⟩ r2 (some s)] ++
        [Event.loadModuleFromSourceString s "shader.slang" "shader.slang" shaderSource
          (some m) d4] ++
          logDiagnostics d4 ++
        [Event.findAndCheckEntryPoint m "main" .SLANG_STAGE_VERTEX r5 entrypoint d5] ++
          logDiagnostics d5 ++
        [Event.createCompositeComponentType s [some m, entrypoint] r6 composedProgram d6] ++
          logDiagnostics d6,
        .returned r6⟩)
    (hComposeNull : ∀ (r0 : SlangResult) (w1 : σ)
      (gs : Handle) (profile : ProfileID) (w2 : σ)
      (r2 : SlangResult) (w3 : σ)
      (s : Handle) (d4 : Option Blob) (w4 : σ)
      (m : Handle) (r5 : SlangResult) (entrypoint : Option Handle) (d5 : Option Blob) (w5 : σ)
      (r6 : SlangResult) (d6 : Option Blob) (w6 : σ),
      api.createGlobalSession w0 = (r0, some gs, w1) →
      api.findProfile gs "spirv_1_5" w1 = (profile, w2) →
      api.createSession gs ⟨[⟨.SLANG_GLSL, profile⟩], 1⟩ w2 = (r2, some s, w3) →
      api.loadModuleFromSourceString s "shader.slang" "shader.slang" shaderSource w3
        = (some m, d4, w4) →
      api.findAndCheckEntryPoint m "main" .SLANG_STAGE_VERTEX w4 = (r5, entrypoint, d5, w5) →
      SLANG_FAILED r5 = false →
      api.createCompositeComponentType s [some m, entrypoint] w5 = (r6, none, d6, w6) →
      SLANG_FAILED r6 = false →
      motive ⟨w6,
        [Event.createGlobalSession r0 (some gs),
          Event.findProfile gs "spirv_1_5" profile,
          Event.createSession gs ⟨[⟨.SLANG_GLSL, profile⟩], 1⟩ r2 (some s)] ++
        [Event.loadModuleFromSourceString s "shader.slang" "shader.slang" shaderSource
          (some m) d4] ++
          logDiagnostics d4 ++
        [Event.findAndCheckEntryPoint m "main" .SLANG_STAGE_VERTEX r5 entrypoint d5] ++
          logDiagnostics d5 ++
        [Event.createCompositeComponentType s [some m, entrypoint] r6 none d6] ++ logDiagnostics d6,
        .nullDeref .composedProgram⟩)
    (hLinkFail : ∀ (r0 : SlangResult) (w1 : σ)
      (gs : Handle) (profile : ProfileID) (w2 : σ)
      (r2 : SlangResult) (w3 : σ)
      (s : Handle) (d4 : Option Blob) (w4 : σ)
      (m : Handle) (r5 : SlangResult) (entrypoint : Option Handle) (d5 : Option Blob) (w5 : σ)
      (r6 : SlangResult) (d6 : Option Blob) (w6 : σ)
      (cp : Handle) (r7 : SlangResult) (d7 : Option Blob) (w7 : σ)
      (linkedProgram : Option Handle),
      api.createGlobalSession w0 = (r0, some gs, w1) →
      api.findProfile gs "spirv_1_5" w1 = (profile, w2) →
      api.createSession gs ⟨[⟨.SLANG_GLSL, profile⟩], 1⟩ w2 = (r2, some s, w3) →
      api.loadModuleFromSourceString s "shader.slang" "shader.slang" shaderSource w3
        = (some m, d4, w4) →
      api.findAndCheckEntryPoint m "main" .SLANG_STAGE_VERTEX w4 = (r5, entrypoint, d5, w5) →
      SLANG_FAILED r5 = false →
      api.createCompositeComponentType s [some m, entrypoint] w5 = (r6, (some cp), d6, w6) →
      SLANG_FAILED r6 = false →
      api.link cp w6 = (r7, linkedProgram, d7, w7) →
      SLANG_FAILED r7 = true →
      motive ⟨w7,
        [Event.createGlobalSession r0 (some gs),
          Event.findProfile gs "spirv_1_5" profile,
          Event.createSession gs ⟨[⟨.SLANG_GLSL, profile⟩], 1⟩ r2 (some s)] ++
        [Event.loadModuleFromSourceString s "shader.slang" "shader.slang" shaderSource
          (some m) d4] ++
          logDiagnostics d4 ++
        [Event.findAndCheckEntryPoint m "main" .SLANG_STAGE_VERTEX r5 entrypoint d5] ++
          logDiagnostics d5 ++
        [Event.createCompositeComponentType s [some m, entrypoint] r6 (some cp) d6] ++
          logDiagnostics d6 ++
        [Event.link cp r7 linkedProgram d7] ++ logDiagnostics d7,
        .returned r7⟩)
    (hLinkNull : ∀ (r0 : SlangResult) (w1 : σ)
      (gs : Handle) (profile : ProfileID) (w2 : σ)
      (r2 : SlangResult) (w3 : σ)
      (s : Handle) (d4 : Option Blob) (w4 : σ)
      (m : Handle) (r5 : SlangResult) (entrypoint : Option Handle) (d5 : Option Blob) (w5 : σ)
      (r6 : SlangResult) (d6 : Option Blob) (w6 : σ)
      (cp : Handle) (r7 : SlangResult) (d7 : Option Blob) (w7 : σ),
      api.createGlobalSession w0 = (r0, some gs, w1) →
      api.findProfile gs "spirv_1_5" w1 = (profile, w2) →
      api.createSession gs ⟨[⟨.SLANG_GLSL, profile⟩], 1⟩ w2 = (r2, some s, w3) →
      api.loadModuleFromSourceString s "shader.slang" "shader.slang" shaderSource w3
        = (some m, d4, w4) →
      api.findAndCheckEntryPoint m "main" .SLANG_STAGE_VERTEX w4 = (r5, entrypoint, d5, w5) →
      SLANG_FAILED r5 = false →
      api.createCompositeComponentType s [some m, entrypoint] w5 = (r6, (some cp), d6, w6) →
      SLANG_FAILED r6 = false →
      api.link cp w6 = (r7, none, d7, w7) →
      SLANG_FAILED r7 = false →
      motive ⟨w7,
        [Event.createGlobalSession r0 (some gs),
          Event.findProfile gs "spirv_1_5" profile,
          Event.createSession gs ⟨[⟨.SLANG_GLSL, profile⟩], 1⟩ r2 (some s)] ++
        [Event.loadModuleFromSourceString s "shader.slang" "shader.slang" shaderSource
          (some m) d4] ++
          logDiagnostics d4 ++
        [Event.findAndCheckEntryPoint m "main" .SLANG_STAGE_VERTEX r5 entrypoint d5] ++
          logDiagnostics d5 ++
        [Event.createCompositeComponentType s [some m, entrypoint] r6 (some cp) d6] ++
          logDiagnostics d6 ++
        [Event.link cp r7 none d7] ++ logDiagnostics d7,
        .nullDeref .linkedProgram⟩)
    (hCodeFail : ∀ (r0 : SlangResult) (w1 : σ)
      (gs : Handle) (profile : ProfileID) (w2 : σ)
      (r2 : SlangResult) (w3 : σ)
      (s : Handle) (d4 : Option Blob) (w4 : σ)
      (m : Handle) (r5 : SlangResult) (entrypoint : Option Handle) (d5 : Option Blob) (w5 : σ)
      (r6 : SlangResult) (d6 : Option Blob) (w6 : σ)
      (cp : Handle) (r7 : SlangResult) (d7 : Option Blob) (w7 : σ)
      (lp : Handle) (r8 : SlangResult) (d8 : Option Blob) (w8 : σ)
      (code : Option Blob),
      api.createGlobalSession w0 = (r0, some gs, w1) →
      api.findProfile gs "spirv_1_5" w1 = (profile, w2) →
      api.createSession gs ⟨[⟨.SLANG_GLSL, profile⟩], 1⟩ w2 = (r2, some s, w3) →
      api.loadModuleFromSourceString s "shader.slang" "shader.slang" shaderSource w3
        = (some m, d4, w4) →
      api.findAndCheckEntryPoint m "main" .SLANG_STAGE_VERTEX w4 = (r5, entrypoint, d5, w5) →
      SLANG_FAILED r5 = false →
      api.createCompositeComponentType s [some m, entrypoint] w5 = (r6, (some cp), d6, w6) →
      SLANG_FAILED r6 = false →
      api.link cp w6 = (r7, (some lp), d7, w7) →
      SLANG_FAILED r7 = false →
      api.getEntryPointCode lp 0 0 w7 = (r8, code, d8, w8) →
      SLANG_FAILED r8 = true →
      motive ⟨w8,
        [Event.createGlobalSession r0 (some gs),
          Event.findProfile gs "spirv_1_5" profile,
          Event.createSession gs ⟨[⟨.SLANG_GLSL, profile⟩], 1⟩ r2 (some s)] ++
        [Event.loadModuleFromSourceString s "shader.slang" "shader.slang" shaderSource
          (some m) d4] ++
          logDiagnostics d4 ++
        [Event.findAndCheckEntryPoint m "main" .SLANG_STAGE_VERTEX r5 entrypoint d5] ++
          logDiagnostics d5 ++
        [Event.createCompositeComponentType s [some m, entrypoint] r6 (some cp) d6] ++
          logDiagnostics d6 ++
        [Event.link cp r7 (some lp) d7] ++ logDiagnostics d7 ++
        [Event.getEntryPointCode lp 0 0 r8 code d8] ++ logDiagnostics d8,
        .returned r8⟩)
    (hCodeNull : ∀ (r0 : SlangResult) (w1 : σ)
      (gs : Handle) (profile : ProfileID) (w2 : σ)
      (r2 : SlangResult) (w3 : σ)
      (s : Handle) (d4 : Option Blob) (w4 : σ)
      (m : Handle) (r5 : SlangResult) (entrypoint : Option Handle) (d5 : Option Blob) (w5 : σ)
      (r6 : SlangResult) (d6 : Option Blob) (w6 : σ)
      (cp : Handle) (r7 : SlangResult) (d7 : Option Blob) (w7 : σ)
      (lp : Handle) (r8 : SlangResult) (d8 : Option Blob) (w8 : σ),
      api.createGlobalSession w0 = (r0, some gs, w1) →
      api.findProfile gs "spirv_1_5" w1 = (profile, w2) →
      api.createSession gs ⟨[⟨.SLANG_GLSL, profile⟩], 1⟩ w2 = (r2, some s, w3) →
      api.loadModuleFromSourceString s "shader.slang" "shader.slang" shaderSource w3
        = (some m, d4, w4) →
      api.findAndCheckEntryPoint m "main" .SLANG_STAGE_VERTEX w4 = (r5, entrypoint, d5, w5) →
      SLANG_FAILED r5 = false →
      api.createCompositeComponentType s [some m, entrypoint] w5 = (r6, (some cp), d6, w6) →
      SLANG_FAILED r6 = false →
      api.link cp w6 = (r7, (some lp), d7, w7) →
      SLANG_FAILED r7 = false →
      api.getEntryPointCode lp 0 0 w7 = (r8, none, d8, w8) →
      SLANG_FAILED r8 = false →
      motive ⟨w8,
        [Event.createGlobalSession r0 (some gs),
          Event.findProfile gs "spirv_1_5" profile,
          Event.createSession gs ⟨[⟨.SLANG_GLSL, profile⟩], 1⟩ r2 (some s)] ++
        [Event.loadModuleFromSourceString s "shader.slang" "shader.slang" shaderSource
          (some m) d4] ++
          logDiagnostics d4 ++
        [Event.findAndCheckEntryPoint m "main" .SLANG_STAGE_VERTEX r5 entrypoint d5] ++
          logDiagnostics d5 ++
        [Event.createCompositeComponentType s [some m, entrypoint] r6 (some cp) d6] ++
          logDiagnostics d6 ++
        [Event.link cp r7 (some lp) d7] ++ logDiagnostics d7 ++
        [Event.getEntryPointCode lp 0 0 r8 none d8] ++ logDiagnostics d8 ++
        [Event.cout (Write.success shaderName)],
        .nullDeref .code⟩)
    (hSuccess : ∀ (r0 : SlangResult) (w1 : σ)
      (gs : Handle) (profile : ProfileID) (w2 : σ)
      (r2 : SlangResult) (w3 : σ)
      (s : Handle) (d4 : Option Blob) (w4 : σ)
      (m : Handle) (r5 : SlangResult) (entrypoint : Option Handle) (d5 : Option Blob) (w5 : σ)
      (r6 : SlangResult) (d6 : Option Blob) (w6 : σ)
      (cp : Handle) (r7 : SlangResult) (d7 : Option Blob) (w7 : σ)
      (lp : Handle) (r8 : SlangResult) (d8 : Option Blob) (w8 : σ)
      (text : Blob),
      api.createGlobalSession w0 = (r0, some gs, w1) →
      api.findProfile gs "spirv_1_5" w1 = (profile, w2) →
      api.createSession gs ⟨[⟨.SLANG_GLSL, profile⟩], 1⟩ w2 = (r2, some s, w3) →
      api.loadModuleFromSourceString s "shader.slang" "shader.slang" shaderSource w3
        = (some m, d4, w4) →
      api.findAndCheckEntryPoint m "main" .SLANG_STAGE_VERTEX w4 = (r5, entrypoint, d5, w5) →
      SLANG_FAILED r5 = false →
      api.createCompositeComponentType s [some m, entrypoint] w5 = (r6, (some cp), d6, w6) →
      SLANG_FAILED r6 = false →
      api.link cp w6 = (r7, (some lp), d7, w7) →
      SLANG_FAILED r7 = false →
      api.getEntryPointCode lp 0 0 w7 = (r8, (some text), d8, w8) →
      SLANG_FAILED r8 = false →
      motive ⟨w8,
        [Event.createGlobalSession r0 (some gs),
          Event.findProfile gs "spirv_1_5" profile,
          Event.createSession gs ⟨[⟨.SLANG_GLSL, profile⟩], 1⟩ r2 (some s)] ++
        [Event.loadModuleFromSourceString s "shader.slang" "shader.slang" shaderSource
          (some m) d4] ++
          logDiagnostics d4 ++
        [Event.findAndCheckEntryPoint m "main" .SLANG_STAGE_VERTEX r5 entrypoint d5] ++
          logDiagnostics d5 ++
        [Event.createCompositeComponentType s [some m, entrypoint] r6 (some cp) d6] ++
          logDiagnostics d6 ++
        [Event.link cp r7 (some lp) d7] ++ logDiagnostics d7 ++
        [Event.getEntryPointCode lp 0 0 r8 (some text) d8] ++ logDiagnostics d8 ++
        [Event.cout (Write.success shaderName), Event.cout (Write.code text)],
        .returned 0⟩) :
    motive r := by
  subst hr
  rcases h0 : api.createGlobalSession w0 with ⟨r0, _ | gs, w1⟩
  · simpa [compile, h0] using hGlobalNull r0 w1 h0
  rcases h1 : api.findProfile gs "spirv_1_5" w1 with ⟨profile, w2⟩
  rcases h2 : api.createSession gs ⟨[⟨.SLANG_GLSL, profile⟩], 1⟩ w2 with ⟨r2, _ | s, w3⟩
  · simpa [compile, h0, h1, h2] using hSessionNull r0 w1 gs profile w2 r2 w3 h0 h1 h2
  rcases h3 : api.loadModuleFromSourceString s "shader.slang" "shader.slang" shaderSource w3
    with ⟨_ | m, d4, w4⟩
  · simpa [compile, h0, h1, h2, h3] using
      hLoadFail r0 w1 gs profile w2 r2 w3 s d4 w4 h0 h1 h2 h3
  rcases h4 : api.findAndCheckEntryPoint m "main" .SLANG_STAGE_VERTEX w4
    with ⟨r5, entrypoint, d5, w5⟩
  by_cases f5 : SLANG_FAILED r5 = true
  · simpa [compile, h0, h1, h2, h3, h4, f5] using
      hFindFail r0 w1 gs profile w2 r2 w3 s d4 w4 m r5 entrypoint d5 w5 h0 h1 h2 h3 h4 f5
  replace f5 : SLANG_FAILED r5 = false := by simpa using f5
  rcases h5 : api.createCompositeComponentType s [some m, entrypoint] w5
    with ⟨r6, composedProgram, d6, w6⟩
  by_cases f6 : SLANG_FAILED r6 = true
  · simpa [compile, h0, h1, h2, h3, h4, f5, h5, f6] using
      hComposeFail r0 w1 gs profile w2 r2 w3 s d4 w4 m r5 entrypoint d5 w5 r6 d6 w6
        composedProgram h0 h1 h2 h3 h4 f5 h5 f6
  replace f6 : SLANG_FAILED r6 = false := by simpa using f6
  rcases composedProgram with _ | cp
  · simpa [compile, h0, h1, h2, h3, h4, f5, h5, f6] using
      hComposeNull r0 w1 gs profile w2 r2 w3 s d4 w4 m r5 entrypoint d5 w5 r6 d6 w6
        h0 h1 h2 h3 h4 f5 h5 f6
  rcases h6 : api.link cp w6 with ⟨r7, linkedProgram, d7, w7⟩
  by_cases f7 : SLANG_FAILED r7 = true
  · simpa [compile, h0, h1, h2, h3, h4, f5, h5, f6, h6, f7] using
      hLinkFail r0 w1 gs profile w2 r2 w3 s d4 w4 m r5 entrypoint d5 w5 r6 d6 w6
        cp r7 d7 w7 linkedProgram h0 h1 h2 h3 h4 f5 h5 f6 h6 f7
  replace f7 : SLANG_FAILED r7 = false := by simpa using f7
  rcases linkedProgram with _ | lp
  · simpa [compile, h0, h1, h2, h3, h4, f5, h5, f6, h6, f7] using
      hLinkNull r0 w1 gs profile w2 r2 w3 s d4 w4 m r5 entrypoint d5 w5 r6 d6 w6
        cp r7 d7 w7 h0 h1 h2 h3 h4 f5 h5 f6 h6 f7
  rcases h7 : api.getEntryPointCode lp 0 0 w7 with ⟨r8, code, d8, w8⟩
  by_cases f8 : SLANG_FAILED r8 = true
  · simpa [compile, h0, h1, h2, h3, h4, f5, h5, f6, h6, f7, h7, f8] using
      hCodeFail r0 w1 gs profile w2 r2 w3 s d4 w4 m r5 entrypoint d5 w5 r6 d6 w6
        cp r7 d7 w7 lp r8 d8 w8 code h0 h1 h2 h3 h4 f5 h5 f6 h6 f7 h7 f8
  replace f8 : SLANG_FAILED r8 = false := by simpa using f8
  rcases code with _ | text
  · simpa [compile, h0, h1, h2, h3, h4, f5, h5, f6, h6, f7, h7, f8] using
      hCodeNull r0 w1 gs profile w2 r2 w3 s d4 w4 m r5 entrypoint d5 w5 r6 d6 w6
        cp r7 d7 w7 lp r8 d8 w8 h0 h1 h2 h3 h4 f5 h5 f6 h6 f7 h7 f8
  · simpa [compile, h0, h1, h2, h3, h4, f5, h5, f6, h6, f7, h7, f8] using
      hSuccess r0 w1 gs profile w2 r2 w3 s d4 w4 m r5 entrypoint d5 w5 r6 d6 w6
        cp r7 d7 w7 lp r8 d8 w8 text h0 h1 h2 h3 h4 f5 h5 f6 h6 f7 h7 f8

/-- Case analysis of one run of `compile` against a compiler that creates its
sessions and honours the contract on out-parameters: the six ways through the
function that remain, none of which dereferences a null pointer. -/
theorem compile_cases_of_contract {σ : Type} (api : SlangApi σ)
    (hc : SuccessYieldsOutput api) (hs : SessionsCreated api)
    (shaderSource shaderName : String)
    (w0 : σ) (r : Run σ) (hr : compile api shaderSource shaderName w0 = r)
    (motive : Run σ → Prop)
    (hLoadFail : ∀ (r0 : SlangResult)
      (gs : Handle) (profile : ProfileID)
      (r2 : SlangResult)
      (s : Handle) (d4 : Option Blob)
      (w : σ),
      motive ⟨w,
        [Event.createGlobalSession r0 (some gs),
          Event.findProfile gs "spirv_1_5" profile,
          Event.createSession gs ⟨[⟨.SLANG_GLSL, profile⟩], 1⟩ r2 (some s)] ++
        [Event.loadModuleFromSourceString s "shader.slang" "shader.slang" shaderSource none d4] ++
          logDiagnostics d4,
        .returned (-1)⟩)
    (hFindFail : ∀ (r0 : SlangResult)
      (gs : Handle) (profile : ProfileID)
      (r2 : SlangResult)
      (s : Handle) (d4 : Option Blob)
      (m : Handle) (r5 : SlangResult) (entrypoint : Option Handle) (d5 : Option Blob)
      (w : σ),
      SLANG_FAILED r5 = true →
      motive ⟨w,
        [Event.createGlobalSession r0 (some gs),
          Event.findProfile gs "spirv_1_5" profile,
          Event.createSession gs ⟨[⟨.SLANG_GLSL, profile⟩], 1⟩ r2 (some s)] ++
        [Event.loadModuleFromSourceString s "shader.slang" "shader.slang" shaderSource
          (some m) d4] ++
          logDiagnostics d4 ++
        [Event.findAndCheckEntryPoint m "main" .SLANG_STAGE_VERTEX r5 entrypoint d5] ++
          logDiagnostics d5,
        .returned r5⟩)
    (hComposeFail : ∀ (r0 : SlangResult)
      (gs : Handle) (profile : ProfileID)
      (r2 : SlangResult)
      (s : Handle) (d4 : Option Blob)
      (m : Handle) (r5 : SlangResult) (entrypoint : Option Handle) (d5 : Option Blob)
      (r6 : SlangResult) (d6 : Option Blob)
      (composedProgram : Option Handle)
      (w : σ),
      SLANG_FAILED r5 = false →
      SLANG_FAILED r6 = true →
      motive ⟨w,
        [Event.createGlobalSession r0 (some gs),
          Event.findProfile gs "spirv_1_5" profile,
          Event.createSession gs ⟨[⟨.SLANG_GLSL, profile⟩], 1⟩ r2 (some s)] ++
        [Event.loadModuleFromSourceString s "shader.slang" "shader.slang" shaderSource
          (some m) d4] ++
          logDiagnostics d4 ++
        [Event.findAndCheckEntryPoint m "main" .SLANG_STAGE_VERTEX r5 entrypoint d5] ++
          logDiagnostics d5 ++
        [Event.createCompositeComponentType s [some m, entrypoint] r6 composedProgram d6] ++
          logDiagnostics d6,
        .returned r6⟩)
    (hLinkFail : ∀ (r0 : SlangResult)
      (gs : Handle) (profile : ProfileID)
      (r2 : SlangResult)
      (s : Handle) (d4 : Option Blob)
      (m : Handle) (r5 : SlangResult) (entrypoint : Option Handle) (d5 : Option Blob)
      (r6 : SlangResult) (d6 : Option Blob)
      (cp : Handle) (r7 : SlangResult) (d7 : Option Blob)
      (linkedProgram : Option Handle)
      (w : σ),
      SLANG_FAILED r5 = false →
      SLANG_FAILED r6 = false →
      SLANG_FAILED r7 = true →
      motive ⟨w,
        [Event.createGlobalSession r0 (some gs),
          Event.findProfile gs "spirv_1_5" profile,
          Event.createSession gs ⟨[⟨.SLANG_GLSL, profile⟩], 1⟩ r2 (some s)] ++
        [Event.loadModuleFromSourceString s "shader.slang" "shader.slang" shaderSource
          (some m) d4] ++
          logDiagnostics d4 ++
        [Event.findAndCheckEntryPoint m "main" .SLANG_STAGE_VERTEX r5 entrypoint d5] ++
          logDiagnostics d5 ++
        [Event.createCompositeComponentType s [some m, entrypoint] r6 (some cp) d6] ++
          logDiagnostics d6 ++
        [Event.link cp r7 linkedProgram d7] ++ logDiagnostics d7,
        .returned r7⟩)
    (hCodeFail : ∀ (r0 : SlangResult)
      (gs : Handle) (profile : ProfileID)
      (r2 : SlangResult)
      (s : Handle) (d4 : Option Blob)
      (m : Handle) (r5 : SlangResult) (entrypoint : Option Handle) (d5 : Option Blob)
      (r6 : SlangResult) (d6 : Option Blob)
      (cp : Handle) (r7 : SlangResult) (d7 : Option Blob)
      (lp : Handle) (r8 : SlangResult) (d8 : Option Blob)
      (code : Option Blob)
      (w : σ),
      SLANG_FAILED r5 = false →
      SLANG_FAILED r6 = false →
      SLANG_FAILED r7 = false →
      SLANG_FAILED r8 = true →
      motive ⟨w,
        [Event.createGlobalSession r0 (some gs),
          Event.findProfile gs "spirv_1_5" profile,
          Event.createSession gs ⟨[⟨.SLANG_GLSL, profile⟩], 1⟩ r2 (some s)] ++
        [Event.loadModuleFromSourceString s "shader.slang" "shader.slang" shaderSource
          (some m) d4] ++
          logDiagnostics d4 ++
        [Event.findAndCheckEntryPoint m "main" .SLANG_STAGE_VERTEX r5 entrypoint d5] ++
          logDiagnostics d5 ++
        [Event.createCompositeComponentType s [some m, entrypoint] r6 (some cp) d6] ++
          logDiagnostics d6 ++
        [Event.link cp r7 (some lp) d7] ++ logDiagnostics d7 ++
        [Event.getEntryPointCode lp 0 0 r8 code d8] ++ logDiagnostics d8,
        .returned r8⟩)
    (hSuccess : ∀ (r0 : SlangResult)
      (gs : Handle) (profile : ProfileID)
      (r2 : SlangResult)
      (s : Handle) (d4 : Option Blob)
      (m : Handle) (r5 : SlangResult) (entrypoint : Option Handle) (d5 : Option Blob)
      (r6 : SlangResult) (d6 : Option Blob)
      (cp : Handle) (r7 : SlangResult) (d7 : Option Blob)
      (lp : Handle) (r8 : SlangResult) (d8 : Option Blob)
      (text : Blob)
      (w : σ),
      SLANG_FAILED r5 = false →
      SLANG_FAILED r6 = false →
      SLANG_FAILED r7 = false →
      SLANG_FAILED r8 = false →
      motive ⟨w,
        [Event.createGlobalSession r0 (some gs),
          Event.findProfile gs "spirv_1_5" profile,
          Event.createSession gs ⟨[⟨.SLANG_GLSL, profile⟩], 1⟩ r2 (some s)] ++
        [Event.loadModuleFromSourceString s "shader.slang" "shader.slang" shaderSource
          (some m) d4] ++
          logDiagnostics d4 ++
        [Event.findAndCheckEntryPoint m "main" .SLANG_STAGE_VERTEX r5 entrypoint d5] ++
          logDiagnostics d5 ++
        [Event.createCompositeComponentType s [some m, entrypoint] r6 (some cp) d6] ++
          logDiagnostics d6 ++
        [Event.link cp r7 (some lp) d7] ++ logDiagnostics d7 ++
        [Event.getEntryPointCode lp 0 0 r8 (some text) d8] ++ logDiagnostics d8 ++
        [Event.cout (Write.success shaderName), Event.cout (Write.code text)],
        .returned 0⟩) :
    motive r := by
  apply compile_cases api shaderSource shaderName w0 r hr
  · intro r0 w1 h0
    have h := hc.createGlobalSession w0 (hs.createGlobalSession w0)
    simp [h0] at h
  · intro r0 w1 gs profile w2 r2 w3 _ _ h2
    have h := hc.createSession gs ⟨[⟨.SLANG_GLSL, profile⟩], 1⟩ w2 (hs.createSession gs _ w2)
    simp [h2] at h
  · intro r0 w1 gs profile w2 r2 w3 s d4 w4 _ _ _ _
    exact hLoadFail r0 gs profile r2 s d4 w4
  · intro r0 w1 gs profile w2 r2 w3 s d4 w4 m r5 entrypoint d5 w5 _ _ _ _ _ f5
    exact hFindFail r0 gs profile r2 s d4 m r5 entrypoint d5 w5 f5
  · intro r0 w1 gs profile w2 r2 w3 s d4 w4 m r5 entrypoint d5 w5 r6 d6 w6 composedProgram
      _ _ _ _ _ f5 _ f6
    exact hComposeFail r0 gs profile r2 s d4 m r5 entrypoint d5 r6 d6 composedProgram w6
      f5 f6
  · intro r0 w1 gs profile w2 r2 w3 s d4 w4 m r5 entrypoint d5 w5 r6 d6 w6
      _ _ _ _ _ _ h5 f6
    have h := hc.createCompositeComponentType s [some m, entrypoint] w5
    simp [h5, f6] at h
  · intro r0 w1 gs profile w2 r2 w3 s d4 w4 m r5 entrypoint d5 w5 r6 d6 w6 cp r7 d7 w7
      linkedProgram _ _ _ _ _ f5 _ f6 _ f7
    exact hLinkFail r0 gs profile r2 s d4 m r5 entrypoint d5 r6 d6 cp r7 d7 linkedProgram w7
      f5 f6 f7
  · intro r0 w1 gs profile w2 r2 w3 s d4 w4 m r5 entrypoint d5 w5 r6 d6 w6 cp r7 d7 w7
      _ _ _ _ _ _ _ _ h6 f7
    have h := hc.link cp w6
    simp [h6, f7] at h
  · intro r0 w1 gs profile w2 r2 w3 s d4 w4 m r5 entrypoint d5 w5 r6 d6 w6 cp r7 d7 w7
      lp r8 d8 w8 code _ _ _ _ _ f5 _ f6 _ f7 _ f8
    exact hCodeFail r0 gs profile r2 s d4 m r5 entrypoint d5 r6 d6 cp r7 d7 lp r8 d8 code w8
      f5 f6 f7 f8
  · intro r0 w1 gs profile w2 r2 w3 s d4 w4 m r5 entrypoint d5 w5 r6 d6 w6 cp r7 d7 w7
      lp r8 d8 w8 _ _ _ _ _ _ _ _ _ _ h7 f8
    have h := hc.getEntryPointCode lp 0 0 w7
    simp [h7, f8] at h
  · intro r0 w1 gs profile w2 r2 w3 s d4 w4 m r5 entrypoint d5 w5 r6 d6 w6 cp r7 d7 w7
      lp r8 d8 w8 text _ _ _ _ _ f5 _ f6 _ f7 _ f8
    exact hSuccess r0 gs profile r2 s d4 m r5 entrypoint d5 r6 d6 cp r7 d7 lp r8 d8 text w8
      f5 f6 f7 f8

/-- A run of `compile` records no call of `compile`. -/
theorem invocations_compile {σ : Type} (api : SlangApi σ)
    (shaderSource shaderName : String) (w : σ) :
    invocations (compile api shaderSource shaderName w).trace = [] := by
  generalize hr : compile api shaderSource shaderName w = r
  apply compile_cases api shaderSource shaderName w r hr
  all_goals intros
  all_goals simp

/-- Contract of the sample compiler `stubApi` when the failing stage reports a
failure result. -/
theorem stubApi_contract (failing : Option Stage) (result : SlangResult)
    (diagnostics : Option Blob) (hresult : SLANG_FAILED result = true) :
    SuccessYieldsOutput (stubApi failing result diagnostics) ∧
      SessionsCreated (stubApi failing result diagnostics) := by
  refine ⟨⟨?_, ?_, ?_, ?_, ?_, ?_⟩, ⟨?_, ?_⟩⟩ <;> intros <;>
    simp [stubApi, SLANG_FAILED] at * <;> split at * <;> simp_all [SLANG_FAILED] <;> linarith

/-! ## Properties -/

/-- C1: `compile` stops at the first failing stage.  For every behaviour of the
compiler, the stage calls made are an initial segment of load, entry-point
lookup, compose, link, code retrieval; every stage call but the last one made
succeeded, so nothing is called after a failed stage; and when no stage call
failed and `compile` returned, all five stages were called. -/
theorem compile_stops_at_first_failure {σ : Type} (api : SlangApi σ)
    (shaderSource shaderName : String) (w : σ) :
    (stageCalls (compile api shaderSource shaderName w).trace).filterMap Event.stage?
        <+: pipeline ∧
    (∀ e ∈ (stageCalls (compile api shaderSource shaderName w).trace).dropLast,
        e.failed = false) ∧
    ((∀ e ∈ stageCalls (compile api shaderSource shaderName w).trace, e.failed = false) →
      (∃ c, (compile api shaderSource shaderName w).outcome = .returned c) →
      (stageCalls (compile api shaderSource shaderName w).trace).filterMap Event.stage?
        = pipeline) := by
  generalize hr : compile api shaderSource shaderName w = r
  apply compile_cases api shaderSource shaderName w r hr
  all_goals intros
  all_goals simp_all [pipeline, Event.stage?, Event.failed]

set_option maxRecDepth 100000 in
/-- C2, counterexample: against a compiler whose `getEntryPointCode` returns a
success result and leaves the blob null, all five stages succeed and yet
`compile` does not return 0 and writes no code text; against a compiler whose
`createGlobalSession` fails, no stage is called, so not all five stages
succeed, and yet `compile` returns no non-zero value: in both runs it
dereferences a null pointer. -/
theorem compile_result_counterexample :
    (AllStagesSucceeded (compile nullCodeApi shaderSourceOk "ok.slang" ()).trace ∧
      (compile nullCodeApi shaderSourceOk "ok.slang" ()).outcome ≠ .returned 0 ∧
      output (compile nullCodeApi shaderSourceOk "ok.slang" ()).trace
        = [Write.success "ok.slang"]) ∧
    (¬ AllStagesSucceeded (compile noGlobalSessionApi shaderSourceOk "ok.slang" ()).trace ∧
      ¬ ∃ c, c ≠ 0 ∧
        (compile noGlobalSessionApi shaderSourceOk "ok.slang" ()).outcome = .returned c) := by
  refine ⟨by decide, by decide, ?_⟩
  rintro ⟨c, -, h⟩
  have hnull : (compile noGlobalSessionApi shaderSourceOk "ok.slang" ()).outcome
      = .nullDeref .globalSession := by decide
  rw [hnull] at h
  cases h

/-- C2, amended: against a compiler that creates its sessions and leaves a
non-null output on every successful call, `compile` returns 0 and writes, after
the stages' diagnostics, the success line with the given name followed by the
generated code text exactly when all five stages succeed; in every other case
it returns a non-zero value and writes nothing but the stages' diagnostics. -/
theorem compile_result {σ : Type} (api : SlangApi σ)
    (hc : SuccessYieldsOutput api) (hs : SessionsCreated api)
    (shaderSource shaderName : String) (w : σ) :
    (AllStagesSucceeded (compile api shaderSource shaderName w).trace →
      (compile api shaderSource shaderName w).outcome = .returned 0 ∧
      ∃ text, generatedCode (compile api shaderSource shaderName w).trace = [text] ∧
        output (compile api shaderSource shaderName w).trace
          = diagnosticWrites (compile api shaderSource shaderName w).trace
            ++ [Write.success shaderName, Write.code text]) ∧
    (¬ AllStagesSucceeded (compile api shaderSource shaderName w).trace →
      (∃ c, c ≠ 0 ∧ (compile api shaderSource shaderName w).outcome = .returned c) ∧
      output (compile api shaderSource shaderName w).trace
        = diagnosticWrites (compile api shaderSource shaderName w).trace) := by
  generalize hr : compile api shaderSource shaderName w = r
  apply compile_cases_of_contract api hc hs shaderSource shaderName w r hr
  all_goals intros
  all_goals simp_all [AllStagesSucceeded, pipeline, Event.stage?, Event.failed,
    diagnosticWrites, Event.diagnostics?, SLANG_FAILED]
  all_goals exact ne_of_lt (by assumption)

set_option maxRecDepth 100000 in
/-- C2, witness: the sample compiler in which every call succeeds, and the one
in which linking fails with `SLANG_FAIL`. -/
theorem compile_result_witness :
    (SuccessYieldsOutput (stubApi none SLANG_FAIL none) ∧
      SessionsCreated (stubApi none SLANG_FAIL none) ∧
      AllStagesSucceeded
        (compile (stubApi none SLANG_FAIL none) shaderSourceOk "ok.slang" ()).trace ∧
      (compile (stubApi none SLANG_FAIL none) shaderSourceOk "ok.slang" ()).outcome
        = .returned 0) ∧
    (SuccessYieldsOutput (stubApi (some .link) SLANG_FAIL (some "error")) ∧
      SessionsCreated (stubApi (some .link) SLANG_FAIL (some "error")) ∧
      ¬ AllStagesSucceeded (compile (stubApi (some .link) SLANG_FAIL (some "error"))
        shaderSourceOk "ok.slang" ()).trace ∧
      output (compile (stubApi (some .link) SLANG_FAIL (some "error"))
        shaderSourceOk "ok.slang" ()).trace
        = diagnosticWrites (compile (stubApi (some .link) SLANG_FAIL (some "error"))
          shaderSourceOk "ok.slang" ()).trace) :=
  ⟨⟨(stubApi_contract none SLANG_FAIL none (by decide)).1,
      (stubApi_contract none SLANG_FAIL none (by decide)).2, by decide,
      ((compile_result (stubApi none SLANG_FAIL none)
        (stubApi_contract none SLANG_FAIL none (by decide)).1
        (stubApi_contract none SLANG_FAIL none (by decide)).2
        shaderSourceOk "ok.slang" ()).1 (by decide)).1⟩,
    ⟨(stubApi_contract (some .link) SLANG_FAIL (some "error") (by decide)).1,
      (stubApi_contract (some .link) SLANG_FAIL (some "error") (by decide)).2, by decide,
      ((compile_result (stubApi (some .link) SLANG_FAIL (some "error"))
        (stubApi_contract (some .link) SLANG_FAIL (some "error") (by decide)).1
        (stubApi_contract (some .link) SLANG_FAIL (some "error") (by decide)).2
        shaderSourceOk "ok.slang" ()).2 (by decide)).2⟩⟩

set_option maxRecDepth 100000 in
/-- C3, counterexample: called with the name "error.slang", `compile` loads the
module under the name and path "shader.slang". -/
theorem compile_load_arguments_counterexample :
    Event.loadModuleFromSourceString 2 "shader.slang" "shader.slang" shaderSourceError
        (some 3) none
      ∈ (compile (stubApi none SLANG_FAIL none) shaderSourceError "error.slang" ()).trace ∧
    "shader.slang" ≠ "error.slang" := by
  decide

/-- C3, amended: whatever name is passed to `compile`, the module load, which
is made in every run but those that dereference a null global session or
session, passes the fixed module name "shader.slang", the fixed path
"shader.slang" and the source text that was passed to `compile`; and the name
is used only in the success message: run with any other name, `compile` ends
in the same state with the same outcome, and its trace, all API calls with
their arguments and answers included, differs only by the name written in the
success line. -/
theorem compile_load_arguments {σ : Type} (api : SlangApi σ)
    (shaderSource shaderName otherName : String) (w : σ) :
    loadArguments (compile api shaderSource shaderName w).trace
      = (if (compile api shaderSource shaderName w).outcome = .nullDeref .globalSession ∨
            (compile api shaderSource shaderName w).outcome = .nullDeref .session
          then [] else [("shader.slang", "shader.slang", shaderSource)]) ∧
    (compile api shaderSource otherName w).world
      = (compile api shaderSource shaderName w).world ∧
    (compile api shaderSource otherName w).outcome
      = (compile api shaderSource shaderName w).outcome ∧
    (compile api shaderSource otherName w).trace
      = (compile api shaderSource shaderName w).trace.map (Event.withName otherName) := by
  generalize hr : compile api shaderSource shaderName w = r
  apply compile_cases api shaderSource shaderName w r hr
  all_goals intros
  all_goals clear hr
  all_goals simp_all [compile, Event.withName]

/-- C4, counterexample: a run that fails at composition and a run that fails at
linking, both with the result `SLANG_FAIL`, return the same value. -/
theorem compile_error_value_counterexample :
    failedStage (compile (stubApi (some .compose) SLANG_FAIL none)
      shaderSourceOk "ok.slang" ()).trace = some .compose ∧
    failedStage (compile (stubApi (some .link) SLANG_FAIL none)
      shaderSourceOk "ok.slang" ()).trace = some .link ∧
    (compile (stubApi (some .compose) SLANG_FAIL none) shaderSourceOk "ok.slang" ()).outcome
      = (compile (stubApi (some .link) SLANG_FAIL none) shaderSourceOk "ok.slang" ()).outcome := by
  decide

/-- C4, amended: when `compile` returns a non-zero value, the last stage called
is the first one that failed, and the value returned is negative: it is -1 when
that stage is the module load, and otherwise the result code of the failing
call, unchanged (so it need not tell the stages apart). -/
theorem compile_error_value {σ : Type} (api : SlangApi σ)
    (shaderSource shaderName : String) (w : σ) (c : Int)
    (hret : (compile api shaderSource shaderName w).outcome = .returned c) (hc : c ≠ 0) :
    c < 0 ∧
    ∃ e, (stageCalls (compile api shaderSource shaderName w).trace).getLast? = some e ∧
      e.failed = true ∧
      failedStage (compile api shaderSource shaderName w).trace = e.stage? ∧
      ((e.stage? = some .load ∧ c = -1) ∨ (e.stage? ≠ some .load ∧ e.result? = some c)) := by
  revert hret
  generalize hr : compile api shaderSource shaderName w = r
  apply compile_cases api shaderSource shaderName w r hr
  all_goals intros
  all_goals simp_all [failedStage, Event.stage?, Event.failed, Event.result?, SLANG_FAILED]
  all_goals subst_vars
  all_goals simp_all

set_option maxRecDepth 100000 in
/-- C4, witness: a run that fails at linking with `SLANG_FAIL`. -/
theorem compile_error_value_witness :
    ((compile (stubApi (some .link) SLANG_FAIL none) shaderSourceOk "ok.slang" ()).outcome
      = .returned SLANG_FAIL ∧ SLANG_FAIL ≠ 0) ∧
    SLANG_FAIL < 0 ∧
    ∃ e, (stageCalls (compile (stubApi (some .link) SLANG_FAIL none)
        shaderSourceOk "ok.slang" ()).trace).getLast? = some e ∧
      e.failed = true ∧
      failedStage (compile (stubApi (some .link) SLANG_FAIL none)
        shaderSourceOk "ok.slang" ()).trace = e.stage? ∧
      ((e.stage? = some .load ∧ SLANG_FAIL = -1) ∨
        (e.stage? ≠ some .load ∧ e.result? = some SLANG_FAIL)) :=
  ⟨⟨by decide, by decide⟩,
    compile_error_value (stubApi (some .link) SLANG_FAIL none) shaderSourceOk "ok.slang" ()
      SLANG_FAIL (by decide) (by decide)⟩

/-- C6, counterexample: for a present blob that holds the empty string,
`logDiagnostics` writes a line end. -/
theorem logDiagnostics_empty_counterexample :
    (output (logDiagnostics (some ""))).map Write.render = ["\n"] ∧
    output (logDiagnostics (some "")) ≠ [] := by
  decide

/-- C6, amended: `logDiagnostics` writes nothing when the blob is absent, and
for every present blob, the empty one included, it writes the blob's text
followed by a line end. -/
theorem logDiagnostics_output (diagnostics : Option Blob) :
    (output (logDiagnostics diagnostics)).map Write.render
      = (diagnostics.map fun text => text ++ "\n").toList ∧
    (output (logDiagnostics diagnostics) = [] ↔ diagnostics = none) := by
  cases diagnostics <;> simp [logDiagnostics, Write.render]

set_option maxRecDepth 100000 in
/-- C7, counterexample: against a compiler whose `createGlobalSession` fails, and
against one whose `getEntryPointCode` succeeds with a null blob, `main` calls
`compile` once and does not return: the first call dereferences a null pointer. -/
theorem main_counterexample :
    (invocations (main noGlobalSessionApi ()).trace = [(shaderSourceError, "error.slang")] ∧
      (main noGlobalSessionApi ()).outcome = .nullDeref .globalSession) ∧
    (invocations (main nullCodeApi ()).trace = [(shaderSourceError, "error.slang")] ∧
      (main nullCodeApi ()).outcome = .nullDeref .code) := by
  decide

/-- C7, amended: for every behaviour of the compiler in which the first call of
`compile` returns, `main` calls `compile` exactly twice, on the error source
with the name "error.slang" and then on the ok source with the name "ok.slang"
(in the state the first call left), whatever the first call returned; and if
the second call returns too, `main` returns 0 whatever the two calls returned. -/
theorem main_runs_both {σ : Type} (api : SlangApi σ) (w : σ) (c1 : Int)
    (hfirst : (compile api shaderSourceError "error.slang" w).outcome = .returned c1) :
    (main api w).trace
      = [Event.compile shaderSourceError "error.slang"]
        ++ (compile api shaderSourceError "error.slang" w).trace
        ++ [Event.compile shaderSourceOk "ok.slang"]
        ++ (compile api shaderSourceOk "ok.slang"
            (compile api shaderSourceError "error.slang" w).world).trace ∧
    invocations (main api w).trace
      = [(shaderSourceError, "error.slang"), (shaderSourceOk, "ok.slang")] ∧
    ∀ c2, (compile api shaderSourceOk "ok.slang"
        (compile api shaderSourceError "error.slang" w).world).outcome = .returned c2 →
      (main api w).outcome = .returned 0 := by
  have htrace : (main api w).trace
      = [Event.compile shaderSourceError "error.slang"]
        ++ (compile api shaderSourceError "error.slang" w).trace
        ++ [Event.compile shaderSourceOk "ok.slang"]
        ++ (compile api shaderSourceOk "ok.slang"
            (compile api shaderSourceError "error.slang" w).world).trace := by
    simp only [main, hfirst]
    split <;> rfl
  refine ⟨htrace, ?_, ?_⟩
  · rw [htrace]
    simp [invocations_compile]
  · intro c2 hsecond
    simp [main, hfirst, hsecond]

set_option maxRecDepth 100000 in
/-- C7, witness: a compiler that fails both entry-point lookups with `SLANG_FAIL`. -/
theorem main_runs_both_witness :
    (compile (stubApi (some .findEntryPoint) SLANG_FAIL (some "error"))
      shaderSourceError "error.slang" ()).outcome = .returned SLANG_FAIL ∧
    (main (stubApi (some .findEntryPoint) SLANG_FAIL (some "error")) ()).outcome
      = .returned 0 :=
  ⟨by decide,
    (main_runs_both (stubApi (some .findEntryPoint) SLANG_FAIL (some "error")) ()
      SLANG_FAIL (by decide)).2.2 SLANG_FAIL (by decide)⟩

set_option maxRecDepth 100000 in
/-- C9: `shaderSourceOk` is `shaderSourceError` with the stage marker inserted
immediately before `void main(`, and removing the marker from `shaderSourceOk`
gives `shaderSourceError` character for character; the marker occurs once in
`shaderSourceOk` and not at all in `shaderSourceError`, and `void main(` occurs
once in `shaderSourceError`. -/
theorem sources_differ_by_stage_marker :
    shaderSourceOk
      = String.mk (insertBefore stageMarker.data mainHeader.data shaderSourceError.data) ∧
    String.mk (removeFirst stageMarker.data shaderSourceOk.data) = shaderSourceError ∧
    countOccurrences stageMarker.data shaderSourceOk.data = 1 ∧
    countOccurrences stageMarker.data shaderSourceError.data = 0 ∧
    countOccurrences mainHeader.data shaderSourceError.data = 1 := by
  decide

/-- C10, failing inputs: a compiler that honours the contract on out-parameters
but fails to create the global session, or the session, makes `compile` call a
method on the null pointer it never tested. -/
theorem compile_null_session_deref :
    SuccessYieldsOutput noGlobalSessionApi ∧
    (compile noGlobalSessionApi shaderSourceOk "ok.slang" ()).outcome
      = .nullDeref .globalSession ∧
    SuccessYieldsOutput noSessionApi ∧
    (compile noSessionApi shaderSourceOk "ok.slang" ()).outcome
      = .nullDeref .session := by
  refine ⟨⟨?_, ?_, ?_, ?_, ?_, ?_⟩, by decide, ⟨?_, ?_, ?_, ?_, ?_, ?_⟩, by decide⟩
  all_goals intros
  all_goals simp_all [noGlobalSessionApi, noSessionApi, SLANG_FAILED, SLANG_FAIL]

/-- The handles that `compile` does guard: against a compiler that honours the
contract on out-parameters, the only null pointers `compile` can dereference
are the global session and the session. -/
theorem compile_guarded_handles {σ : Type} (api : SlangApi σ)
    (hc : SuccessYieldsOutput api) (shaderSource shaderName : String) (w : σ) (p : Ptr)
    (hnull : (compile api shaderSource shaderName w).outcome = .nullDeref p) :
    p = .globalSession ∨ p = .session := by
  revert hnull
  generalize hr : compile api shaderSource shaderName w = r
  apply compile_cases api shaderSource shaderName w r hr
  case hComposeNull =>
    intro r0 w1 gs profile w2 r2 w3 s d4 w4 m r5 entrypoint d5 w5 r6 d6 w6
      _ _ _ _ _ _ h5 f6
    have h := hc.createCompositeComponentType s [some m, entrypoint] w5
    simp [h5, f6] at h
  case hLinkNull =>
    intro r0 w1 gs profile w2 r2 w3 s d4 w4 m r5 entrypoint d5 w5 r6 d6 w6 cp r7 d7 w7
      _ _ _ _ _ _ _ _ h6 f7
    have h := hc.link cp w6
    simp [h6, f7] at h
  case hCodeNull =>
    intro r0 w1 gs profile w2 r2 w3 s d4 w4 m r5 entrypoint d5 w5 r6 d6 w6 cp r7 d7 w7
      lp r8 d8 w8 _ _ _ _ _ _ _ _ _ _ h7 f8
    have h := hc.getEntryPointCode lp 0 0 w7
    simp [h7, f8] at h
  all_goals intros
  all_goals simp_all

end SlangIssueRepro
